import Mathlib

/-!
Verification of the persistent-session driver of the phasma repository
(src/phasma/driver/driver_persistent.py) and of the bridging layer
(src/phasma/browser.py), as a shallow embedding.

Modelling conventions:
* Python / JavaScript strings are Lean String values; the JSON documents
  exchanged on the two channel files are modelled by the inductive Json
  below (objects, strings, integers, booleans, null; arrays and floats are
  not produced by any protocol message modelled here and parse as failures,
  which is conservative).
* Real time is abstracted to iteration counts: a polling loop that runs
  until a wall-clock timeout is modelled as a loop with an explicit fuel
  argument equal to the number of poll iterations the time budget admits.
  The while condition of the source compares elapsed time, which is about
  zero at the first check, so every positive timeout admits at least one
  iteration.
* The contents the dispatcher observes when it reads the response file are
  supplied as a trace (one String per poll iteration); this models the
  concurrent writes of the engine process.
* Filesystem existence is a list of paths; operations are logged as FsOp
  values and applied to the filesystem by applyOp.
-/

namespace Phasma

mutual
/-- JSON values, as exchanged on the channel files. Mutual with JFields so
that all functions below are structurally recursive and reduce in the
kernel. -/
inductive Json where
  | null : Json
  | bool (b : Bool) : Json
  | num (n : Int) : Json
  | str (s : String) : Json
  | obj (fields : JFields) : Json
deriving DecidableEq

/-- Field list of a JSON object. -/
inductive JFields where
  | nil : JFields
  | cons (key : String) (value : Json) (rest : JFields) : JFields
deriving DecidableEq
end

/-- Lookup of a key in a JSON object field list (first occurrence). -/
def JFields.lookup (k : String) : JFields → Option Json
  | .nil => none
  | .cons key value rest => if key = k then some value else JFields.lookup k rest

/-- Member access result [k] on a JSON value: some value only when the value
is an object holding the key. Accessing a key of a non-object, or a missing
key, yields none (the Python source would raise TypeError / KeyError there,
the JavaScript source would yield undefined). -/
def Json.get? (j : Json) (k : String) : Option Json :=
  match j with
  | .obj fields => fields.lookup k
  | _ => none

/-- ASCII whitespace test used by strip and by the JSON parser. -/
def isWsChar (c : Char) : Bool :=
  (c == ' ') || (c == '\n') || (c == '\t') || (c == '\r')

/-- Python str.strip / JavaScript String.trim on ASCII whitespace. -/
def strip (s : String) : String :=
  ⟨((s.data.dropWhile isWsChar).reverse.dropWhile isWsChar).reverse⟩

/-- Escaping of one character inside a serialized JSON string literal. -/
def jsonEscChar (c : Char) : List Char :=
  if c = '"' then ['\\', '"']
  else if c = '\\' then ['\\', '\\']
  else if c = '\n' then ['\\', 'n']
  else if c = '\r' then ['\\', 'r']
  else if c = '\t' then ['\\', 't']
  else [c]

/-- Serialized JSON string literal. -/
def stringifyStr (s : String) : String :=
  ⟨'"' :: (s.data.flatMap jsonEscChar ++ ['"'])⟩

mutual
/-- JSON serialization (JSON.stringify of the engine side, json.dumps of the
controller side; whitespace differences between the two are immaterial since
the parser skips whitespace). -/
def Json.stringify : Json → String
  | .null => "null"
  | .bool true => "true"
  | .bool false => "false"
  | .num n => toString n
  | .str s => stringifyStr s
  | .obj fields => "\x7b" ++ JFields.stringify fields ++ "\x7d"

/-- Serialization of object members. -/
def JFields.stringify : JFields → String
  | .nil => ""
  | .cons k v .nil => stringifyStr k ++ ":" ++ Json.stringify v
  | .cons k v (.cons k2 v2 rest) =>
      stringifyStr k ++ ":" ++ Json.stringify v ++ "," ++
        JFields.stringify (.cons k2 v2 rest)
end

/-- Skip leading ASCII whitespace. -/
def skipWs (cs : List Char) : List Char := cs.dropWhile isWsChar

/-- Parse the body of a JSON string literal after the opening quote; returns
the decoded characters and the remainder after the closing quote. -/
def parseStrBody : List Char → Option (List Char × List Char)
  | [] => none
  | '"' :: cs => some ([], cs)
  | '\\' :: e :: cs =>
      match (if e = '"' then some '"'
             else if e = '\\' then some '\\'
             else if e = 'n' then some '\n'
             else if e = 'r' then some '\r'
             else if e = 't' then some '\t'
             else if e = '/' then some '/'
             else none) with
      | none => none
      | some c =>
          match parseStrBody cs with
          | none => none
          | some (body, rest) => some (c :: body, rest)
  | '\\' :: [] => none
  | c :: cs =>
      match parseStrBody cs with
      | none => none
      | some (body, rest) => some (c :: body, rest)

/-- Consume a run of decimal digits, accumulating their value. -/
def parseNatAux : List Char → Nat → Nat × List Char
  | c :: cs, acc =>
      if c.isDigit then parseNatAux cs (acc * 10 + (c.toNat - 48)) else (acc, c :: cs)
  | [], acc => (acc, [])

/-- Parse a JSON integer (optional minus sign, at least one digit). -/
def parseInt : List Char → Option (Int × List Char)
  | '-' :: c :: cs =>
      if c.isDigit then
        match parseNatAux cs (c.toNat - 48) with
        | (n, r) => some (-(n : Int), r)
      else none
  | c :: cs =>
      if c.isDigit then
        match parseNatAux cs (c.toNat - 48) with
        | (n, r) => some ((n : Int), r)
      else none
  | [] => none

mutual
/-- Fuel-indexed JSON value parsing; fuel bounds the nesting depth. -/
def parseVal : Nat → List Char → Option (Json × List Char)
  | 0, _ => none
  | fuel + 1, cs =>
      match skipWs cs with
      | '\x7b' :: cs1 =>
          match skipWs cs1 with
          | '\x7d' :: cs2 => some (.obj .nil, cs2)
          | _ =>
              match parseMembers fuel cs1 with
              | none => none
              | some (fields, rest) => some (.obj fields, rest)
      | '"' :: cs1 =>
          match parseStrBody cs1 with
          | none => none
          | some (body, rest) => some (.str ⟨body⟩, rest)
      | 't' :: 'r' :: 'u' :: 'e' :: rest => some (.bool true, rest)
      | 'f' :: 'a' :: 'l' :: 's' :: 'e' :: rest => some (.bool false, rest)
      | 'n' :: 'u' :: 'l' :: 'l' :: rest => some (.null, rest)
      | cs1 =>
          match parseInt cs1 with
          | none => none
          | some (n, rest) => some (.num n, rest)

/-- Fuel-indexed parsing of the members of a JSON object, positioned after
the opening brace (at least one member present). -/
def parseMembers : Nat → List Char → Option (JFields × List Char)
  | 0, _ => none
  | fuel + 1, cs =>
      match skipWs cs with
      | '"' :: cs1 =>
          match parseStrBody cs1 with
          | none => none
          | some (key, cs2) =>
              match skipWs cs2 with
              | ':' :: cs3 =>
                  match parseVal fuel cs3 with
                  | none => none
                  | some (v, cs4) =>
                      match skipWs cs4 with
                      | ',' :: cs5 =>
                          match parseMembers fuel cs5 with
                          | none => none
                          | some (rest, cs6) => some (.cons ⟨key⟩ v rest, cs6)
                      | '\x7d' :: cs5 => some (.cons ⟨key⟩ v .nil, cs5)
                      | _ => none
              | _ => none
      | _ => none
end

/-- JSON.parse of the engine side and json.loads of the controller side:
none models a thrown SyntaxError / JSONDecodeError. The whole input must be
consumed (up to trailing whitespace). -/
def Json.parse? (s : String) : Option Json :=
  match parseVal (s.length + 1) s.data with
  | some (v, rest) => if (skipWs rest).isEmpty then some v else none
  | none => none

example : Json.parse? "null" = some .null := by decide
example : Json.parse? "notjson" = none := by decide
example : Json.parse? "" = none := by decide

/-- Handle on the spawned engine process; alive is true exactly when the
Python poll() call returns None. -/
structure Proc where
  alive : Bool
deriving DecidableEq

/-- State of a DriverPersistent object (fields of the Python class; the
command and response file attributes are modelled by the paths of the
underlying named temporary files). -/
structure DriverPersistent where
  process : Option Proc
  is_closed : Bool
  temp_scripts : List String
  command_file : Option String
  response_file : Option String
deriving DecidableEq

/-- The state produced by the constructor of DriverPersistent. -/
def DriverPersistent.init : DriverPersistent :=
  ⟨none, false, [], none, none⟩

/-- Filesystem operations performed by the controller, recorded as a log.
Contents are not tracked here; where a claim depends on contents (the two
channel files), those travel through explicit trace arguments. -/
inductive FsOp where
  | createF (path : String)
  | writeF (path : String)
  | readF (path : String)
  | unlinkF (path : String)
deriving DecidableEq

/-- Process-control operations performed by the controller. -/
inductive ProcOp where
  | spawn
  | terminate
  | wait
  | kill
deriving DecidableEq

/-- The filesystem, as the list of existing paths. -/
abbrev FS := List String

/-- Effect of one controller filesystem operation on which paths exist:
opening a file for writing creates it when missing, unlink removes it,
reads change nothing. -/
def applyOp (fs : FS) : FsOp → FS
  | .createF p => if p ∈ fs then fs else p :: fs
  | .writeF p => if p ∈ fs then fs else p :: fs
  | .readF _ => fs
  | .unlinkF p => fs.filter (fun q => q ≠ p)

/-- Apply a log of filesystem operations in order. -/
def applyOps (fs : FS) (ops : List FsOp) : FS := ops.foldl applyOp fs

/-- Errors raised by the driver layer. Each constructor models one raise
site of driver_persistent.py:
* notStartedOrClosed: RuntimeError, message Persistent session not started
  or already closed (send_command guard);
* driverClosed: RuntimeError, message Driver has been closed;
* phantomError: RuntimeError carrying an engine-reported error payload;
* lookupError: KeyError / TypeError from indexing a decoded response that
  lacks the expected key or is not an object;
* timeout: TimeoutError whose message names the action and the timeout
  value (Command action timed out after timeout seconds);
* exitedEarly: RuntimeError raised when the process exits before READY,
  carrying the captured stderr;
* startupTimeout: RuntimeError raised when no READY line arrives within the
  startup timeout. -/
inductive PErr where
  | notStartedOrClosed
  | driverClosed
  | phantomError (message : Json)
  | lookupError
  | timeout (action : String) (timeoutVal : Nat)
  | exitedEarly (stderr : String)
  | startupTimeout
deriving DecidableEq

/-- The response-polling loop of DriverPersistent.send_command. One call per
poll iteration: trace supplies the successive contents the read of the
response file observes, fuel is the number of iterations the wall-clock
timeout admits. Mirrors the source: read and strip; when empty, sleep and
retry; when non-empty, first clear the response file, then json.loads: a
decode failure sleeps and retries, a decoded object is dispatched on its
type field (error raises, result returns data, anything else falls through
to the next iteration). -/
def pollLoop (action : String) (tmo : Nat) (rspPath : String) :
    Nat → List String → Except PErr Json × List FsOp
  | 0, _ => (.error (.timeout action tmo), [])
  | fuel + 1, trace =>
      let content := strip (trace.headD "")
      if content = "" then
        let r0 := pollLoop action tmo rspPath fuel trace.tail
        (r0.1, .readF rspPath :: r0.2)
      else
        match Json.parse? content with
        | none =>
            let r0 := pollLoop action tmo rspPath fuel trace.tail
            (r0.1, .readF rspPath :: .writeF rspPath :: r0.2)
        | some result =>
            match result.get? "type" with
            | none => (.error .lookupError, [.readF rspPath, .writeF rspPath])
            | some t =>
                if t = .str "error" then
                  match result.get? "message" with
                  | none => (.error .lookupError, [.readF rspPath, .writeF rspPath])
                  | some m => (.error (.phantomError m), [.readF rspPath, .writeF rspPath])
                else if t = .str "result" then
                  match result.get? "data" with
                  | none => (.error .lookupError, [.readF rspPath, .writeF rspPath])
                  | some d => (.ok d, [.readF rspPath, .writeF rspPath])
                else
                  let r0 := pollLoop action tmo rspPath fuel trace.tail
                  (r0.1, .readF rspPath :: .writeF rspPath :: r0.2)

/-- DriverPersistent.send_command. Guards first (exactly in source order: a
missing or exited process raises notStartedOrClosed, then the closed flag
raises driverClosed), before any filesystem operation; then the encoded
command is written to the command file and the polling loop runs. params is
carried for shape only: its content never influences control flow on the
controller side. -/
def send_command (st : DriverPersistent) (action : String) (params : Json)
    (tmo : Nat) (trace : List String) (fuel : Nat) :
    Except PErr Json × List FsOp :=
  match st.process with
  | none => (.error .notStartedOrClosed, [])
  | some p =>
      if p.alive = false then (.error .notStartedOrClosed, [])
      else if st.is_closed then (.error .driverClosed, [])
      else
        let _ := params
        let cmdPath := st.command_file.getD ""
        let rspPath := st.response_file.getD ""
        let r0 := pollLoop action tmo rspPath fuel trace
        (r0.1, .writeF cmdPath :: r0.2)

/-- Environment of one close call: the response contents and iteration
budget observed by the graceful close round trip, whether the post-terminate
wait exceeds its five second budget (subprocess.TimeoutExpired, answered by
kill), and the set of paths whose deletion raises OSError (swallowed). -/
structure CloseEnv where
  gracefulTrace : List String
  gracefulFuel : Nat
  waitTimesOut : Bool
  unlinkFails : List String

/-- Result of close and of the finalizer: the new driver state, the
filesystem, and the logs of filesystem and process operations. -/
structure CloseOut where
  st : DriverPersistent
  fs : FS
  fsOps : List FsOp
  procOps : List ProcOp
deriving DecidableEq

/-- The graceful phase of DriverPersistent.close: when the process handle
exists and poll() reports it alive, one send_command close round trip with a
five second budget; any exception from it is caught and answered by
terminate, then wait (escalating to kill when the wait times out). -/
def closeGraceful (s : DriverPersistent) (fs : FS) (env : CloseEnv) :
    FS × List FsOp × List ProcOp :=
  match s.process with
  | none => (fs, [], [])
  | some p =>
      if p.alive then
        let r0 := send_command s "close" (.obj .nil) 5 env.gracefulTrace env.gracefulFuel
        match r0.1 with
        | .ok _ => (applyOps fs r0.2, r0.2, [])
        | .error _ =>
            (applyOps fs r0.2, r0.2,
              if env.waitTimesOut then [.terminate, .wait, .kill] else [.terminate, .wait])
      else (fs, [], [])

/-- The cleanup loop of DriverPersistent.close: for each recorded temporary
path, when it exists, unlink it; an OSError from unlink is swallowed and
leaves the path in place. -/
def unlinkAll : List String → FS → List String → FS × List FsOp
  | [], fs, _ => (fs, [])
  | p :: rest, fs, fails =>
      if p ∈ fs then
        if p ∈ fails then
          let r0 := unlinkAll rest fs fails
          (r0.1, .unlinkF p :: r0.2)
        else
          let r0 := unlinkAll rest (fs.filter (fun q => q ≠ p)) fails
          (r0.1, .unlinkF p :: r0.2)
      else unlinkAll rest fs fails

/-- DriverPersistent.close: graceful phase, then deletion of every recorded
temporary path, then the closed flag is set and the process handle dropped;
finally the two file handles are closed with any exception swallowed (handle
closing has no effect on the state or filesystem modelled here). Every
fallible sub-operation (the graceful send, the wait, each unlink, each
handle close) appears with its failure case handled, so the function is
total: close never raises. -/
def close (s : DriverPersistent) (fs : FS) (env : CloseEnv) : CloseOut :=
  let g := closeGraceful s fs env
  let cleaned := unlinkAll s.temp_scripts g.1 env.unlinkFails
  ⟨{ s with is_closed := true, process := none }, cleaned.1,
    g.2.1 ++ cleaned.2, g.2.2⟩

/-- The finalizer: when the object was never closed and still holds a
process handle, it runs the same close sequence; otherwise it does
nothing. -/
def finalizer (s : DriverPersistent) (fs : FS) (env : CloseEnv) : CloseOut :=
  match s.is_closed, s.process with
  | false, some _ => close s fs env
  | _, _ => ⟨s, fs, [], []⟩

/-- One observation of the startup loop of start_persistent_session, in
order: either poll() reports the process exited (with the stderr the code
then reads), or a line of standard output was read, or the readline call
raised and the iteration was skipped after a short sleep. -/
inductive StartEvent where
  | exited (stderr : String)
  | line (s : String)
  | noLine
deriving DecidableEq

/-- Substring containment on character lists (the Python in operator). -/
def containsTok (needle : List Char) : List Char → Bool
  | [] => needle.isEmpty
  | c :: cs => needle.isPrefixOf (c :: cs) || containsTok needle cs

/-- The Python test READY in line. -/
def containsREADY (l : String) : Bool := containsTok "READY".data l.data

example : containsREADY "READY" = true := by decide
example : containsREADY "xx READY yy" = true := by decide
example : containsREADY "READ" = false := by decide

/-- The readiness loop of start_persistent_session: each iteration first
checks whether the process exited (raising with the captured stderr), then
reads one line and breaks when it contains READY; a failed readline is
skipped. An exhausted event list models the ten second startup window
elapsing, after which the no-READY error is raised. -/
def readyLoop : List StartEvent → Except PErr Unit
  | [] => .error .startupTimeout
  | .exited stderr :: _ => .error (.exitedEarly stderr)
  | .line l :: rest => if containsREADY l then .ok () else readyLoop rest
  | .noLine :: rest => readyLoop rest

/-- Environment of one start_persistent_session call: the fresh paths the
tempfile module hands out for the command channel, the response channel and
the bootstrap script, the observations of the readiness loop, and the
liveness the process handle has once the call returns. -/
structure StartEnv where
  cmdPath : String
  rspPath : String
  scriptPath : String
  events : List StartEvent
  aliveAfter : Bool

/-- Result of start_persistent_session: the outcome (ok, or the raised
error), the driver state (mutated even on the raising paths, as in the
source), the filesystem and the operation logs. -/
structure StartOut where
  result : Except PErr Unit
  st : DriverPersistent
  fs : FS
  fsOps : List FsOp
  procOps : List ProcOp

/-- DriverPersistent.start_persistent_session: when a process handle exists
and poll() reports it alive, return immediately (no state change, no
filesystem or process operation). Otherwise create the two channel files,
record them in the temporary list, write the bootstrap script to a third
temporary file and record it, spawn the engine process, and run the
readiness loop. The behaviour of the generated bootstrap script itself is
modelled separately by engineStep. -/
def start_persistent_session (s : DriverPersistent) (fs : FS) (env : StartEnv) :
    StartOut :=
  match s.process with
  | some p =>
      if p.alive then ⟨.ok (), s, fs, [], []⟩ else startFresh s fs env
  | none => startFresh s fs env
where
  startFresh (s : DriverPersistent) (fs : FS) (env : StartEnv) : StartOut :=
    let ops : List FsOp :=
      [.createF env.cmdPath, .createF env.rspPath, .createF env.scriptPath,
        .writeF env.scriptPath]
    let st : DriverPersistent :=
      { s with
        command_file := some env.cmdPath
        response_file := some env.rspPath
        temp_scripts := s.temp_scripts ++ [env.cmdPath, env.rspPath] ++ [env.scriptPath]
        process := some ⟨env.aliveAfter⟩ }
    ⟨readyLoop env.events, st, applyOps fs ops, ops, [.spawn]⟩

/-- JavaScript truthiness, used by the generated script on command.params
(every object, including the empty one, is truthy). -/
def jsTruthy : Json → Bool
  | .null => false
  | .bool b => b
  | .num n => n != 0
  | .str s => !s.isEmpty
  | .obj _ => true

/-- Python truthiness, used by the bridging layer on the decoded click and
fill results (an empty dict is falsy, unlike in JavaScript). -/
def pyTruthy : Json → Bool
  | .null => false
  | .bool b => b
  | .num n => n != 0
  | .str s => !s.isEmpty
  | .obj .nil => false
  | .obj (.cons _ _ _) => true

/-- A result Response as built by the generated script. -/
def resultResp (d : Json) : Json :=
  .obj (.cons "type" (.str "result") (.cons "data" d .nil))

/-- An error Response as built by the generated script. -/
def errorResp (m : String) : Json :=
  .obj (.cons "type" (.str "error") (.cons "message" (.str m) .nil))

/-- The two channel files as seen by the engine process. -/
structure EngineFiles where
  cmd : String
  rsp : String
deriving DecidableEq

/-- Environment of one engine poll iteration: what the in-page evaluations
of the generated script produce. clickFound and fillFound model whether
document.querySelector finds the requested element; evalResult the value of
the evaluated expression; parseErrMsg and nullErrMsg the message property of
the JSON.parse SyntaxError and of the TypeError raised by property access on
null. -/
structure EngineEnv where
  clickFound : Bool
  fillFound : Bool
  evalResult : Json
  parseErrMsg : String
  nullErrMsg : String

/-- Side effects of one engine poll iteration other than channel-file
writes: a navigation was started (its response is written only later, from
the page.open callback), a screenshot was rendered, or phantom.exit ran. -/
inductive EngineEffect where
  | navStarted (url : Option Json)
  | screenshotTaken (path : Option Json)
  | exited
deriving DecidableEq

/-- One iteration of the processCommands loop of the generated bootstrap
script. Mirrors the source order: read the command file; when its trimmed
content is non-empty, JSON.parse it — a parse failure is caught by the outer
try and answered by writing an error response WITHOUT clearing the command
file; property access on a parsed null likewise throws before the clear; for
any other parsed value the action and params properties are read, THEN the
command file is cleared, then the action is dispatched (navigate starts an
asynchronous load whose response is written later; evaluate, click, fill and
screenshot write their response; close exits the engine; an unrecognized
action writes nothing). -/
def engineStep (env : EngineEnv) (f : EngineFiles) : EngineFiles × List EngineEffect :=
  let content := strip f.cmd
  if content = "" then (f, [])
  else
    match Json.parse? content with
    | none => ({ f with rsp := (errorResp env.parseErrMsg).stringify }, [])
    | some .null => ({ f with rsp := (errorResp env.nullErrMsg).stringify }, [])
    | some command =>
        let action := command.get? "action"
        let params :=
          match command.get? "params" with
          | some p => if jsTruthy p then p else .obj .nil
          | none => .obj .nil
        let f := { f with cmd := "" }
        match action with
        | some (.str "navigate") => (f, [.navStarted (params.get? "url")])
        | some (.str "evaluate") =>
            ({ f with rsp := (resultResp env.evalResult).stringify }, [])
        | some (.str "click") =>
            ({ f with rsp := (resultResp (.bool env.clickFound)).stringify }, [])
        | some (.str "fill") =>
            ({ f with rsp := (resultResp (.bool env.fillFound)).stringify }, [])
        | some (.str "screenshot") =>
            ({ f with rsp := (resultResp (.str "Screenshot saved")).stringify },
              [.screenshotTaken (params.get? "path")])
        | some (.str "close") => (f, [.exited])
        | _ => (f, [])

/-- Errors raised by the bridging layer (phasma.browser). elementNotFound
models the Error raised with the message naming the selector that was not
found; driverError wraps an exception propagating from the driver layer. -/
inductive BrowserErr where
  | elementNotFound (selector : String)
  | driverError (e : PErr)
deriving DecidableEq

/-- Page.click of the bridging layer, applied to the outcome of the
driver-layer click call: a raised driver exception propagates; a returned
falsy value raises the element-not-found Error; a truthy value returns
normally. -/
def Page.click (selector : String) (driverOutcome : Except PErr Json) :
    Except BrowserErr Unit :=
  match driverOutcome with
  | .error e => .error (.driverError e)
  | .ok success =>
      if pyTruthy success then .ok () else .error (.elementNotFound selector)

/-- Page.fill of the bridging layer, same shape as Page.click. -/
def Page.fill (selector : String) (value : String)
    (driverOutcome : Except PErr Json) : Except BrowserErr Unit :=
  let _ := value
  match driverOutcome with
  | .error e => .error (.driverError e)
  | .ok success =>
      if pyTruthy success then .ok () else .error (.elementNotFound selector)

/-- Argument of _escape_js_string: None, a str, or a pathlib.Path (held as
its string form). -/
inductive JsArg where
  | none
  | str (s : List Char)
  | path (p : List Char)

/-- Python str.replace specialized to a single-character pattern: every
occurrence of the character is replaced by the given replacement. -/
def pyReplace1 (old : Char) (new : List Char) (s : List Char) : List Char :=
  s.flatMap (fun c => if c = old then new else [c])

/-- The replacement chain of _escape_js_string on a string value, in source
order: backslash first, then single quote, double quote, newline, carriage
return. -/
def escBody (s : List Char) : List Char :=
  pyReplace1 '\r' ['\\', 'r']
    (pyReplace1 '\n' ['\\', 'n']
      (pyReplace1 '"' ['\\', '"']
        (pyReplace1 (Char.ofNat 39) ['\\', Char.ofNat 39]
          (pyReplace1 '\\' ['\\', '\\'] s))))

/-- _escape_js_string of phasma.browser: None becomes the JavaScript null
literal; a Path is first converted to its string; then the replacement
chain runs. -/
def escape_js_string : JsArg → List Char
  | .none => "null".data
  | .str s => escBody s
  | .path p => escBody p

/-- Single-pass per-character escaping, written from the words of the claim:
each backslash, single quote, double quote, newline and carriage return is
replaced by its backslash-escaped form, every other character is kept. -/
def escCharSpec (c : Char) : List Char :=
  if c = '\\' then ['\\', '\\']
  else if c = Char.ofNat 39 then ['\\', Char.ofNat 39]
  else if c = '"' then ['\\', '"']
  else if c = '\n' then ['\\', 'n']
  else if c = '\r' then ['\\', 'r']
  else [c]

/-- The specification-side reading of _escape_js_string as one pass. -/
def escape_js_spec : JsArg → List Char
  | .none => "null".data
  | .str s => s.flatMap escCharSpec
  | .path p => p.flatMap escCharSpec

/-- An observation that stops the readiness loop: the process exited, or a
read line contains the READY sentinel (failed reads and non-READY lines are
skipped). -/
def isDecisive : StartEvent → Bool
  | .exited _ => true
  | .line l => containsREADY l
  | .noLine => false

/-- A concrete open session state, as left by a successful start: live
process, closed flag unset, the three temporary paths recorded. -/
def openSt : DriverPersistent :=
  ⟨some ⟨true⟩, false, ["cmdpath", "rsppath", "scriptpath"],
    some "cmdpath", some "rsppath"⟩

section Theorems

lemma pyReplace1_append (o : Char) (n a b : List Char) :
    pyReplace1 o n (a ++ b) = pyReplace1 o n a ++ pyReplace1 o n b := by
  simp [pyReplace1]

lemma escBody_append (a b : List Char) :
    escBody (a ++ b) = escBody a ++ escBody b := by
  simp [escBody, pyReplace1_append]

lemma escBody_single (c : Char) : escBody [c] = escCharSpec c := by
  by_cases h1 : c = '\\'
  · subst h1; decide
  · by_cases h2 : c = Char.ofNat 39
    · subst h2; decide
    · by_cases h3 : c = '"'
      · subst h3; decide
      · by_cases h4 : c = '\n'
        · subst h4; decide
        · by_cases h5 : c = '\r'
          · subst h5; decide
          · simp [escBody, escCharSpec, pyReplace1, h1, h2, h3, h4, h5]

lemma escBody_eq (s : List Char) : escBody s = s.flatMap escCharSpec := by
  induction s with
  | nil => decide
  | cons c cs ih =>
      have hsplit : (c :: cs) = [c] ++ cs := rfl
      rw [hsplit, escBody_append, List.flatMap_append, escBody_single]
      simp [ih]

/-- C10: _escape_js_string maps None to the JavaScript null literal, first
converts Path values to strings, and otherwise equals the single-pass
escaping that replaces each backslash, single quote, double quote, newline
and carriage return by its backslash-escaped form — escaping backslashes
first in the source chain introduces no double escaping, which is exactly
the equality with the single-pass specification. -/
theorem escape_js_string_spec (a : JsArg) :
    escape_js_string a = escape_js_spec a := by
  cases a with
  | none => rfl
  | str s => exact escBody_eq s
  | path p => exact escBody_eq p

/-- The state a completed close leaves behind: closed flag set, process
handle dropped, everything else untouched. -/
lemma close_st (s : DriverPersistent) (fs : FS) (env : CloseEnv) :
    (close s fs env).st = { s with is_closed := true, process := none } := rfl

/-- C1: every command sent after close() has completed is rejected before
any filesystem operation: the dispatcher raises the closed-session
RuntimeError (the guard message names the not-started-or-already-closed
state) and its filesystem log is empty — it neither writes the command file
nor reads the response file. Moreover, in any state with the closed flag
set, send_command fails fast with one of the two closed-session guard
errors, again with an empty filesystem log. -/
theorem send_command_after_close
    (s : DriverPersistent) (fs : FS) (env : CloseEnv) (action : String)
    (params : Json) (tmo : Nat) (trace : List String) (fuel : Nat) :
    (send_command (close s fs env).st action params tmo trace fuel =
      (.error .notStartedOrClosed, [])) ∧
    (∀ st : DriverPersistent, st.is_closed = true → st.process = none →
      send_command st action params tmo trace fuel =
        (.error .notStartedOrClosed, [])) ∧
    (∀ (st : DriverPersistent) (p : Proc), st.is_closed = true →
      st.process = some p → p.alive = true →
      send_command st action params tmo trace fuel =
        (.error .driverClosed, [])) := by
  refine ⟨rfl, ?_, ?_⟩
  · intro st _ hp
    simp [send_command, hp]
  · intro st p hclosed hp ha
    simp [send_command, hp, ha, hclosed]

/-- Witness for the closed-flag parts of the C1 theorem at concrete closed
states. -/
theorem send_command_after_close_witness :
    send_command { openSt with is_closed := true } "navigate" (.obj .nil) 60 [] 1 =
      (.error .driverClosed, []) ∧
    send_command { openSt with is_closed := true, process := none } "navigate"
      (.obj .nil) 60 [] 1 = (.error .notStartedOrClosed, []) :=
  ⟨(send_command_after_close openSt [] ⟨[], 0, false, []⟩ "navigate"
      (.obj .nil) 60 [] 1).2.2 _ ⟨true⟩ rfl rfl rfl,
    (send_command_after_close openSt [] ⟨[], 0, false, []⟩ "navigate"
      (.obj .nil) 60 [] 1).2.1 _ rfl rfl⟩

/-- C3: close never raises — every fallible sub-operation of the modelled
close is handled inside it, so it is a total function — and it always leaves
the closed state: flag set and process handle dropped, in every starting
state (running, exited, never started, already closed) and under every
failure environment. It is idempotent: a second close returns the same
closed state. The finalizer of a closed object is a no-op, and in general
the finalizer either performs exactly the close sequence or does nothing, so
it likewise cannot raise. -/
theorem close_total_idempotent (s : DriverPersistent) (fs : FS) (env : CloseEnv) :
    (close s fs env).st.is_closed = true ∧
    (close s fs env).st.process = none ∧
    (∀ fs2 env2, (close (close s fs env).st fs2 env2).st = (close s fs env).st) ∧
    (∀ fs2 env2, finalizer (close s fs env).st fs2 env2 =
      ⟨(close s fs env).st, fs2, [], []⟩) ∧
    (∀ s3 fs3 env3, finalizer s3 fs3 env3 = close s3 fs3 env3 ∨
      finalizer s3 fs3 env3 = ⟨s3, fs3, [], []⟩) := by
  refine ⟨rfl, rfl, fun fs2 env2 => rfl, fun fs2 env2 => rfl, ?_⟩
  intro s3 fs3 env3
  match h1 : s3.is_closed, h2 : s3.process with
  | false, some p => left; unfold finalizer; rw [h1, h2]
  | false, none => right; unfold finalizer; rw [h1, h2]
  | true, some p => right; unfold finalizer; rw [h1, h2]
  | true, none => right; unfold finalizer; rw [h1, h2]

/-- C9: start_persistent_session is a no-op when the session already has a
live process: it returns immediately with the state, the filesystem and both
operation logs untouched — no second spawn, no new channel or script files,
no state change. -/
theorem start_noop_when_running
    (s : DriverPersistent) (fs : FS) (env : StartEnv) (p : Proc)
    (hp : s.process = some p) (ha : p.alive = true) :
    start_persistent_session s fs env = ⟨.ok (), s, fs, [], []⟩ := by
  simp [start_persistent_session, hp, ha]

/-- Witness for C9 at a concrete live-session state. -/
theorem start_noop_when_running_witness :
    start_persistent_session openSt ["cmdpath", "rsppath", "scriptpath"]
      ⟨"c2", "r2", "s2", [], true⟩ =
      ⟨.ok (), openSt, ["cmdpath", "rsppath", "scriptpath"], [], []⟩ :=
  start_noop_when_running openSt _ _ ⟨true⟩ rfl rfl

/-- C7: the bridging layer turns the boolean element-not-found result of the
driver layer into a raised error: when the driver click or fill returns
false, Page.click and Page.fill raise the element-not-found Error naming the
selector; when it returns true they return normally. The driver layer itself
returns the bare false decoded from the engine response, as the last
conjunct shows on a concrete exchange. -/
theorem page_click_fill_raise_on_false (selector value : String) (tmo : Nat) :
    Page.click selector (.ok (.bool false)) = .error (.elementNotFound selector) ∧
    Page.click selector (.ok (.bool true)) = .ok () ∧
    Page.fill selector value (.ok (.bool false)) = .error (.elementNotFound selector) ∧
    Page.fill selector value (.ok (.bool true)) = .ok () ∧
    (send_command openSt "click" (.obj .nil) tmo
      [(resultResp (.bool false)).stringify] 1).1 = .ok (.bool false) := by
  exact ⟨rfl, rfl, rfl, rfl, rfl⟩

lemma unlinkAll_subset (temps : List String) (fs : FS) (fails : List String) :
    (unlinkAll temps fs fails).1 ⊆ fs := by
  induction temps generalizing fs with
  | nil => simp [unlinkAll]
  | cons q rest ih =>
      by_cases hq : q ∈ fs
      · by_cases hf : q ∈ fails
        · simpa [unlinkAll, hq, hf] using ih fs
        · simp only [unlinkAll, hq, hf, if_true, if_false]
          exact (ih _).trans (List.filter_subset' _)
      · simpa [unlinkAll, hq] using ih fs

lemma unlinkAll_removes (temps : List String) (fs : FS) (p : String)
    (hp : p ∈ temps) : p ∉ (unlinkAll temps fs []).1 := by
  induction temps generalizing fs with
  | nil => cases hp
  | cons q rest ih =>
      intro hmem
      by_cases hq : q ∈ fs
      · simp only [unlinkAll, hq, if_true, List.not_mem_nil, if_false] at hmem
        rcases List.mem_cons.mp hp with rfl | hrest
        · have := unlinkAll_subset rest (fs.filter (fun x => x ≠ p)) [] hmem
          simp [List.mem_filter] at this
        · exact ih _ hrest hmem
      · simp only [unlinkAll, hq, if_false] at hmem
        rcases List.mem_cons.mp hp with rfl | hrest
        · exact hq (unlinkAll_subset rest fs [] hmem)
        · exact ih _ hrest hmem

/-- The filesystem a close leaves behind is the cleanup loop applied after
the graceful phase. -/
lemma close_fs (s : DriverPersistent) (fs : FS) (env : CloseEnv) :
    (close s fs env).fs =
      (unlinkAll s.temp_scripts (closeGraceful s fs env).1 env.unlinkFails).1 := rfl

/-- Every path recorded in the temporary list is gone after close, for any
session state, when no deletion raises. -/
lemma close_deletes (s : DriverPersistent) (fs : FS) (env : CloseEnv)
    (hfail : env.unlinkFails = []) :
    ∀ p ∈ s.temp_scripts, p ∉ (close s fs env).fs := by
  intro p hp
  rw [close_fs, hfail]
  exact unlinkAll_removes s.temp_scripts _ p hp

/-- C2: a fresh start records exactly the three temporary files it creates
(command channel, response channel, bootstrap script), and close deletes
every path recorded in the temporary list — so after start followed by
close none of the files the session created remains on disk (deletion
errors, which the source swallows, are excluded by hypothesis). -/
theorem start_close_no_temp_left
    (s0 : DriverPersistent) (fs0 : FS) (senv : StartEnv) (cenv : CloseEnv)
    (hfail : cenv.unlinkFails = []) :
    (s0.process = none → s0.temp_scripts = [] →
      (start_persistent_session s0 fs0 senv).st.temp_scripts =
        [senv.cmdPath, senv.rspPath, senv.scriptPath]) ∧
    (∀ p ∈ (start_persistent_session s0 fs0 senv).st.temp_scripts,
      p ∉ (close (start_persistent_session s0 fs0 senv).st
            (start_persistent_session s0 fs0 senv).fs cenv).fs) := by
  constructor
  · intro hp hts
    simp [start_persistent_session, hp, start_persistent_session.startFresh, hts]
  · exact close_deletes _ _ _ hfail

/-- Witness for C2: a concrete fresh session started and closed; the
command-channel path is recorded and does not survive the close. -/
theorem start_close_no_temp_left_witness :
    ((start_persistent_session DriverPersistent.init []
        ⟨"c", "r", "s", [.line "READY"], true⟩).st.temp_scripts =
      ["c", "r", "s"]) ∧
    "c" ∉ (close (start_persistent_session DriverPersistent.init []
        ⟨"c", "r", "s", [.line "READY"], true⟩).st
      (start_persistent_session DriverPersistent.init []
        ⟨"c", "r", "s", [.line "READY"], true⟩).fs ⟨[], 0, false, []⟩).fs := by
  have h := start_close_no_temp_left DriverPersistent.init []
    ⟨"c", "r", "s", [.line "READY"], true⟩ ⟨[], 0, false, []⟩ rfl
  exact ⟨h.1 rfl rfl, h.2 "c" (by decide)⟩

lemma readyLoop_ok_iff (evs : List StartEvent) :
    readyLoop evs = .ok () ↔
      ∃ l, evs.find? isDecisive = some (.line l) ∧ containsREADY l = true := by
  induction evs with
  | nil => simp [readyLoop]
  | cons e rest ih =>
      cases e with
      | exited m =>
          rw [List.find?_cons_of_pos _ (by simp [isDecisive])]
          simp [readyLoop]
      | line l =>
          by_cases hr : containsREADY l
          · rw [List.find?_cons_of_pos _ (by simp [isDecisive, hr])]
            simp [readyLoop, hr]
          · rw [List.find?_cons_of_neg _ (by simp [isDecisive, hr])]
            simpa [readyLoop, hr] using ih
      | noLine =>
          rw [List.find?_cons_of_neg _ (by simp [isDecisive])]
          simpa [readyLoop] using ih

lemma readyLoop_no_decisive (evs : List StartEvent)
    (h : ∀ e ∈ evs, isDecisive e = false) :
    readyLoop evs = .error .startupTimeout := by
  induction evs with
  | nil => rfl
  | cons e rest ih =>
      cases e with
      | exited m => exact absurd (h (.exited m) (by simp)) (by simp [isDecisive])
      | line l =>
          have hl : containsREADY l = false := by
            simpa [isDecisive] using h (.line l) (by simp)
          rw [readyLoop, hl]
          · exact ih fun e he => h e (by simp [he])
      | noLine => exact ih fun e he => h e (by simp [he])

lemma readyLoop_exited (pre : List StartEvent) (m : String) (rest : List StartEvent)
    (h : ∀ e ∈ pre, isDecisive e = false) :
    readyLoop (pre ++ .exited m :: rest) = .error (.exitedEarly m) := by
  induction pre with
  | nil => rfl
  | cons e pre2 ih =>
      cases e with
      | exited m2 => exact absurd (h (.exited m2) (by simp)) (by simp [isDecisive])
      | line l =>
          have hl : containsREADY l = false := by
            simpa [isDecisive] using h (.line l) (by simp)
          rw [List.cons_append, readyLoop, hl]
          · exact ih fun e he => h e (by simp [he])
      | noLine => exact ih fun e he => h e (by simp [he])

/-- On a fresh state, start runs the readiness loop over its observations. -/
lemma start_result_fresh (s : DriverPersistent) (fs : FS) (env : StartEnv)
    (hp : s.process = none) :
    (start_persistent_session s fs env).result = readyLoop env.events ∧
    (start_persistent_session s fs env).procOps = [.spawn] := by
  constructor <;> simp [start_persistent_session, hp, start_persistent_session.startFresh]

/-- C4: on a fresh session, start succeeds exactly when the first decisive
observation of the startup window is a standard-output line containing the
READY token (containment, not exact match); when the process is observed
exited before any READY line the startup error carrying the captured stderr
is raised; when the window passes with no decisive observation the
no-READY startup error is raised; and start never terminates or kills the
spawned process — in the timeout case it is left running. -/
theorem start_ready_iff (s : DriverPersistent) (fs : FS) (env : StartEnv)
    (hp : s.process = none) :
    ((start_persistent_session s fs env).result = .ok () ↔
      ∃ l, env.events.find? isDecisive = some (.line l) ∧ containsREADY l = true) ∧
    ((∀ e ∈ env.events, isDecisive e = false) →
      (start_persistent_session s fs env).result = .error .startupTimeout) ∧
    (∀ pre m rest, env.events = pre ++ .exited m :: rest →
      (∀ e ∈ pre, isDecisive e = false) →
      (start_persistent_session s fs env).result = .error (.exitedEarly m)) ∧
    ProcOp.terminate ∉ (start_persistent_session s fs env).procOps ∧
    ProcOp.kill ∉ (start_persistent_session s fs env).procOps := by
  obtain ⟨hres, hops⟩ := start_result_fresh s fs env hp
  refine ⟨?_, ?_, ?_, ?_, ?_⟩
  · rw [hres]; exact readyLoop_ok_iff env.events
  · intro h; rw [hres]; exact readyLoop_no_decisive env.events h
  · intro pre m rest hevs h
    rw [hres, hevs]; exact readyLoop_exited pre m rest h
  · rw [hops]; simp
  · rw [hops]; simp

/-- Witness for C4 on three concrete startup observation sequences: a READY
line after noise succeeds, a window with no decisive observation raises the
no-READY error with the process left alone, and an early exit raises the
stderr-carrying error. -/
theorem start_ready_iff_witness :
    (start_persistent_session DriverPersistent.init []
      ⟨"c", "r", "s", [.noLine, .line "boot", .line "xx READY yy"], true⟩).result =
        .ok () ∧
    (start_persistent_session DriverPersistent.init []
      ⟨"c", "r", "s", [.noLine, .line "boot"], true⟩).result =
        .error .startupTimeout ∧
    (start_persistent_session DriverPersistent.init []
      ⟨"c", "r", "s", [.line "boot", .exited "boom"], false⟩).result =
        .error (.exitedEarly "boom") ∧
    ProcOp.terminate ∉ (start_persistent_session DriverPersistent.init []
      ⟨"c", "r", "s", [.noLine, .line "boot"], true⟩).procOps := by
  refine ⟨?_, ?_, ?_, ?_⟩
  · exact (start_ready_iff DriverPersistent.init []
      ⟨"c", "r", "s", [.noLine, .line "boot", .line "xx READY yy"], true⟩ rfl).1.mpr
      ⟨"xx READY yy", by decide, by decide⟩
  · exact (start_ready_iff DriverPersistent.init []
      ⟨"c", "r", "s", [.noLine, .line "boot"], true⟩ rfl).2.1 (by decide)
  · exact (start_ready_iff DriverPersistent.init []
      ⟨"c", "r", "s", [.line "boot", .exited "boom"], false⟩ rfl).2.2.1
      [.line "boot"] "boom" [] rfl (by decide)
  · exact (start_ready_iff DriverPersistent.init []
      ⟨"c", "r", "s", [.noLine, .line "boot"], true⟩ rfl).2.2.2.1

/-- On an open session the dispatcher outcome is the polling loop outcome. -/
lemma send_command_open (st : DriverPersistent) (p : Proc) (action : String)
    (params : Json) (tmo : Nat) (trace : List String) (fuel : Nat)
    (hp : st.process = some p) (ha : p.alive = true) (hc : st.is_closed = false) :
    (send_command st action params tmo trace fuel).1 =
      (pollLoop action tmo (st.response_file.getD "") fuel trace).1 := by
  simp [send_command, hp, ha, hc]

/-- When every observed content is empty or unparsable, the polling loop
runs to exhaustion and reports the timeout naming the action and the
timeout value. -/
lemma pollLoop_all_unready (action : String) (tmo : Nat) (rspPath : String)
    (fuel : Nat) (trace : List String)
    (h : ∀ c ∈ trace, strip c = "" ∨ Json.parse? (strip c) = none) :
    (pollLoop action tmo rspPath fuel trace).1 = .error (.timeout action tmo) := by
  induction fuel generalizing trace with
  | zero => rfl
  | succ fuel ih =>
      cases trace with
      | nil =>
          have hs : strip "" = "" := rfl
          simp only [pollLoop, List.headD, hs, if_true]
          exact ih [] (by simp)
      | cons c cs =>
          have htail : ∀ x ∈ cs, strip x = "" ∨ Json.parse? (strip x) = none :=
            fun x hx => h x (by simp [hx])
          rcases h c (by simp) with hc | hc
          · simp only [pollLoop, List.headD, hc, if_true, List.tail_cons]
            exact ih cs htail
          · by_cases hce : strip c = ""
            · simp only [pollLoop, List.headD, hce, if_true, List.tail_cons]
              exact ih cs htail
            · simp only [pollLoop, List.headD, hce, if_false, hc, List.tail_cons]
              exact ih cs htail

/-- C5: on an open session, a JSON decode failure while reading the response
file is never surfaced: as long as every observed content is empty or fails
to parse, the loop keeps retrying and, when the window is exhausted, raises
the TimeoutError naming the action and the timeout value; and after a
mid-write decode failure a later poll iteration can still succeed on the
fully written response — the first unparsable observation is skipped and the
decoded data of the following well-formed result response is returned. -/
theorem send_command_parse_failure_retried (st : DriverPersistent) (p : Proc)
    (action : String) (params : Json) (tmo : Nat)
    (hp : st.process = some p) (ha : p.alive = true) (hc : st.is_closed = false) :
    (∀ trace fuel, (∀ c ∈ trace, strip c = "" ∨ Json.parse? (strip c) = none) →
      (send_command st action params tmo trace fuel).1 =
        .error (.timeout action tmo)) ∧
    (∀ g r rest d fuel, Json.parse? (strip g) = none →
      Json.parse? (strip r) = some (resultResp d) →
      (send_command st action params tmo (g :: r :: rest) (fuel + 2)).1 = .ok d) := by
  constructor
  · intro trace fuel h
    rw [send_command_open st p action params tmo trace fuel hp ha hc]
    exact pollLoop_all_unready action tmo _ fuel trace h
  · intro g r rest d fuel hg hr
    rw [send_command_open st p action params tmo _ _ hp ha hc]
    have hrne : strip r ≠ "" := by
      intro he
      rw [he, show Json.parse? "" = none from rfl] at hr
      exact Option.noConfusion hr
    by_cases hge : strip g = ""
    · simp only [pollLoop, List.headD, hge, if_true, List.tail_cons, hrne, if_false, hr]
      simp [resultResp, Json.get?, JFields.lookup]
    · simp only [pollLoop, List.headD, hge, if_false, hg, List.tail_cons, hrne, hr]
      simp [resultResp, Json.get?, JFields.lookup]

/-- Witness for C5 on a concrete open session: a single garbage observation
runs to timeout, and garbage followed by a well-formed result response
yields that response. -/
theorem send_command_parse_failure_retried_witness :
    (send_command openSt "navigate" (.obj .nil) 60 ["notjson"] 2).1 =
      .error (.timeout "navigate" 60) ∧
    (send_command openSt "navigate" (.obj .nil) 60
      ["notjson", (resultResp (.str "page")).stringify] 2).1 = .ok (.str "page") := by
  obtain ⟨h1, h2⟩ := send_command_parse_failure_retried openSt ⟨true⟩ "navigate"
    (.obj .nil) 60 rfl rfl rfl
  refine ⟨h1 ["notjson"] 2 ?_, ?_⟩
  · intro c hcm
    simp only [List.mem_singleton] at hcm
    subst hcm
    right
    decide
  · exact h2 "notjson" ((resultResp (.str "page")).stringify) [] (.str "page") 0
      (by decide) (by decide)

/-- Counterexample to C6 as stated: with the smallest positive window (one
poll iteration, modelling a 1ms timeout) the dispatcher does NOT always
raise TimeoutError — a complete leftover response from a previous exchange
sitting in the response file is decoded and returned as the result of the
new command. -/
theorem send_command_tiny_timeout_counterexample :
    (send_command openSt "evaluate" (.obj .nil) 1
        [(resultResp (.str "stale")).stringify] 1).1 = .ok (.str "stale") ∧
    (send_command openSt "evaluate" (.obj .nil) 1
        [(resultResp (.str "stale")).stringify] 1).1 ≠
      .error (.timeout "evaluate" 1) := by
  refine ⟨rfl, ?_⟩
  intro h
  rw [show (send_command openSt "evaluate" (.obj .nil) 1
      [(resultResp (.str "stale")).stringify] 1).1 = .ok (.str "stale") from rfl] at h
  exact Except.noConfusion h

/-- C6 amended: with a timeout admitting a single poll iteration (smaller
than any engine processing latency), send_command raises the TimeoutError —
and never returns a partial result — PROVIDED the content observed in the
response file during that window is empty or unparsable; a complete
parseable response left over from a previous exchange is instead decoded
and returned (see the counterexample). -/
theorem send_command_tiny_timeout_amended (st : DriverPersistent) (p : Proc)
    (action : String) (params : Json) (tmo : Nat) (trace : List String)
    (hp : st.process = some p) (ha : p.alive = true) (hc : st.is_closed = false)
    (h : strip (trace.headD "") = "" ∨ Json.parse? (strip (trace.headD "")) = none) :
    (send_command st action params tmo trace 1).1 = .error (.timeout action tmo) := by
  rw [send_command_open st p action params tmo trace 1 hp ha hc]
  rcases h with h | h
  · simp only [pollLoop, h, if_true]
  · by_cases he : strip (trace.headD "") = ""
    · simp only [pollLoop, he, if_true]
    · simp only [pollLoop, he, if_false, h]

/-- Witness for the amended C6: a one-iteration window observing partial
mid-write garbage raises the timeout naming the action and value. -/
theorem send_command_tiny_timeout_amended_witness :
    (send_command openSt "evaluate" (.obj .nil) 1 ["notjson"] 1).1 =
      .error (.timeout "evaluate" 1) :=
  send_command_tiny_timeout_amended openSt ⟨true⟩ "evaluate" (.obj .nil) 1
    ["notjson"] rfl rfl rfl (Or.inr (by decide))

/-- Counterexample to C8 as stated: when the written content is not a valid
Command structure the bootstrap script does NOT clear the command file — the
JSON.parse failure is thrown before the clear and caught by the outer
handler, which only writes an error response. The same content is therefore
read and processed again on the next poll iteration (a second error
response write), violating at-most-once delivery for invalid content. -/
theorem engine_invalid_command_not_cleared :
    (engineStep ⟨false, false, .null, "parse error", "null error"⟩
      ⟨"notjson", ""⟩) =
      (⟨"notjson", (errorResp "parse error").stringify⟩, []) ∧
    (engineStep ⟨false, false, .null, "parse error", "null error"⟩
      (engineStep ⟨false, false, .null, "parse error", "null error"⟩
        ⟨"notjson", ""⟩).1) =
      (⟨"notjson", (errorResp "parse error").stringify⟩, []) := by
  exact ⟨rfl, rfl⟩

/-- C8 amended: the bootstrap script clears the command file immediately
after successfully parsing it to a non-null value — before dispatching on
the action — so every successfully parsed command is dispatched at most once
per write: the following poll iteration finds the file empty and does
nothing. Content that fails to parse (or parses to null, whose property
access throws) is not cleared and is re-processed on every iteration (see
the counterexample). -/
theorem engine_clears_parsed_command (env : EngineEnv) (f : EngineFiles)
    (command : Json) (hne : strip f.cmd ≠ "")
    (hparse : Json.parse? (strip f.cmd) = some command)
    (hnull : command ≠ .null) :
    (engineStep env f).1.cmd = "" ∧
    ∀ env2, engineStep env2 (engineStep env f).1 = ((engineStep env f).1, []) := by
  have hcmd : (engineStep env f).1.cmd = "" := by
    unfold engineStep
    simp only [hne, if_false, hparse]
    cases command with
    | null => exact absurd rfl hnull
    | bool b => rfl
    | num n => rfl
    | str s => split <;> rfl
    | obj fields => split <;> rfl
  refine ⟨hcmd, fun env2 => ?_⟩
  conv_lhs => rw [engineStep]
  rw [hcmd]
  simp [show strip "" = "" from rfl]

/-- Witness for the amended C8: a concrete well-formed click command is
cleared by the step that dispatches it, and the following iteration is a
no-op. -/
theorem engine_clears_parsed_command_witness :
    (engineStep ⟨false, false, .null, "parse error", "null error"⟩
      ⟨(Json.obj (.cons "action" (.str "click")
          (.cons "params" (.obj (.cons "selector" (.str "#btn") .nil)) .nil))).stringify,
        ""⟩).1.cmd = "" ∧
    engineStep ⟨true, false, .null, "parse error", "null error"⟩
      (engineStep ⟨false, false, .null, "parse error", "null error"⟩
        ⟨(Json.obj (.cons "action" (.str "click")
            (.cons "params" (.obj (.cons "selector" (.str "#btn") .nil)) .nil))).stringify,
          ""⟩).1 =
      ((engineStep ⟨false, false, .null, "parse error", "null error"⟩
        ⟨(Json.obj (.cons "action" (.str "click")
            (.cons "params" (.obj (.cons "selector" (.str "#btn") .nil)) .nil))).stringify,
          ""⟩).1, []) := by
  obtain ⟨h1, h2⟩ := engine_clears_parsed_command
    ⟨false, false, .null, "parse error", "null error"⟩
    ⟨(Json.obj (.cons "action" (.str "click")
        (.cons "params" (.obj (.cons "selector" (.str "#btn") .nil)) .nil))).stringify,
      ""⟩
    (Json.obj (.cons "action" (.str "click")
        (.cons "params" (.obj (.cons "selector" (.str "#btn") .nil)) .nil)))
    (by decide) (by decide) (by decide)
  exact ⟨h1, h2 ⟨true, false, .null, "parse error", "null error"⟩⟩

end Theorems

end Phasma
